import Mathlib

/-!
Shallow embedding of the babushkaml-app workbench frontend core:
the Tauri command bindings and typed records (`src/lib/tauri.ts`),
the training-console event handlers (`src/pages/Training.tsx` /
`src/pages/Workbench.tsx`), the in-memory `Logger`, the WebSocket
update handler (`src/hooks/useWebSocket.ts`), and the `SyncService`.
Machine state is passed explicitly; fallible operations return
`Except`/`Option`.
-/

namespace Babushka

/-! ## Model lifecycle stages (`ModelVersion.stage` union in tauri.ts) -/

inductive Stage where
  | draft
  | staging
  | production
  | archived
deriving DecidableEq, Repr

/-- The stage strings in their declared order, as in `StageSelector`:
`const stages = ['draft', 'staging', 'production', 'archived']`. -/
def stagesList : List String := ["draft", "staging", "production", "archived"]

def stageToString : Stage → String
  | .draft => "draft"
  | .staging => "staging"
  | .production => "production"
  | .archived => "archived"

/-- Position of a stage in the strict forward order
draft < staging < production < archived. -/
def stageIndex : Stage → Nat
  | .draft => 0
  | .staging => 1
  | .production => 2
  | .archived => 3

/-- JavaScript `Array.prototype.indexOf` on a list of strings:
index of the first occurrence, `-1` when absent. -/
def jsIndexOf : List String → String → Int
  | [], _ => -1
  | x :: xs, s =>
      if x = s then 0
      else
        let r := jsIndexOf xs s
        if r = -1 then -1 else r + 1

/-- The `StageSelector` (Workbench component in Training.tsx): the button for the
stage at position `i` fires `onPromote` only when `i > currentIndex`, where
`currentIndex = stages.indexOf(currentStage)`; the button is `disabled` when
`i <= currentIndex`. -/
def stageSelectorInvokes (currentStage : String) (i : Nat) : Bool :=
  (i : Int) > jsIndexOf stagesList currentStage

/-! ## ModelVersion record (tauri.ts) -/

structure ModelVersion where
  id : String
  model_id : String
  run_id : Option String
  version : String
  stage : Stage
  artifact_path : String
  provenance_json : Option String
  metrics_json : Option String
  created_at : String
  promoted_at : Option String
deriving DecidableEq, Repr

/-- Modelled from the spec: the backend `promote_model` command (the Rust
`promote(version_id, stage)` handler is not under src/). It "validates the
requested stage is strictly forward of (or equal to archived from any
state) the current stage; rejects downgrade attempts with a typed error; on
success sets `promoted_at` if this is the version's first promotion." -/
def promote (v : ModelVersion) (requested : Stage) (now : String) :
    Except String ModelVersion :=
  if requested = Stage.archived ∨ stageIndex v.stage < stageIndex requested then
    Except.ok { v with
      stage := requested
      promoted_at := match v.promoted_at with
        | none => some now
        | some t => some t }
  else
    Except.error "invalid stage transition: cannot move backward"

def exceptIsOk {ε α : Type} : Except ε α → Bool
  | .ok _ => true
  | .error _ => false

/-! ## Run status (the `Run.status` union in tauri.ts) -/

inductive RunStatus where
  | pending
  | running
  | succeeded
  | failed
  | cancelled
deriving DecidableEq, Repr

/-- The command-binding interface admits exactly the five union members of
`Run.status` in tauri.ts: a status string outside the union is not
representable there. -/
def parseRunStatus (s : String) : Option RunStatus :=
  if s = "pending" then some .pending
  else if s = "running" then some .running
  else if s = "succeeded" then some .succeeded
  else if s = "failed" then some .failed
  else if s = "cancelled" then some .cancelled
  else none

/-- Modelled from the spec: the terminal-status classification
"status ∈ {pending, running, succeeded, failed, cancelled}
(terminal: succeeded, failed, cancelled)" — the Rust state machine that
enforces terminality is not under src/. -/
def isTerminal : RunStatus → Bool
  | .succeeded => true
  | .failed => true
  | .cancelled => true
  | .pending => false
  | .running => false

/-! ## Live subscription channel surface (the `onRun*` listeners in tauri.ts) -/

structure RunStartedPayload where
  run_id : String
  project_id : String
deriving DecidableEq, Repr

structure RunLogPayload where
  run_id : String
  level : String
  message : String
  ts : String
deriving DecidableEq, Repr

structure RunMetricPayload where
  run_id : String
  key : String
  value : Int
  step : Int
  ts : String
deriving DecidableEq, Repr

structure RunProgressPayload where
  run_id : String
  current : Int
  total : Int
  ts : String
deriving DecidableEq, Repr

structure RunStatusPayload where
  run_id : String
  status : String
  error : Option String
  ts : String
deriving DecidableEq, Repr

structure RunErrorPayload where
  run_id : String
  error : String
deriving DecidableEq, Repr

structure RunCompletedPayload where
  run_id : String
  project_id : String
  status : String
  error : Option String
deriving DecidableEq, Repr

/-- One constructor per event type delivered to subscribers. -/
inductive RunEvent where
  | started (p : RunStartedPayload)
  | log (p : RunLogPayload)
  | metric (p : RunMetricPayload)
  | progress (p : RunProgressPayload)
  | status (p : RunStatusPayload)
  | error (p : RunErrorPayload)
  | completed (p : RunCompletedPayload)
deriving DecidableEq, Repr

/-- The channel name each `listen(...)` call in tauri.ts subscribes to. -/
def eventChannel : RunEvent → String
  | .started _ => "run-started"
  | .log _ => "run-log"
  | .metric _ => "run-metric"
  | .progress _ => "run-progress"
  | .status _ => "run-status"
  | .error _ => "run-error"
  | .completed _ => "run-completed"

/-- The seven channels exposed by the subscription surface. -/
def eventChannels : List String :=
  ["run-started", "run-log", "run-metric", "run-progress",
   "run-status", "run-error", "run-completed"]

/-- Every payload shape includes its originating `run_id` field. -/
def eventRunId : RunEvent → String
  | .started p => p.run_id
  | .log p => p.run_id
  | .metric p => p.run_id
  | .progress p => p.run_id
  | .status p => p.run_id
  | .error p => p.run_id
  | .completed p => p.run_id

/-! ## Training console state and event handlers (Workbench in Training.tsx) -/

structure ConsoleState where
  trainingLogs : List RunLogPayload
  trainingMetrics : List RunMetricPayload
  trainingProgress : Option (Int × Int)
  trainingStatus : Option String
deriving DecidableEq, Repr

/-- JavaScript `arr.slice(-n)` for `n > 0`: the last `n` elements. -/
def jsSliceLast {α : Type} (n : Nat) (l : List α) : List α :=
  l.drop (l.length - n)

/-- The `onRunLog` handler: when the event's `run_id` equals the active run id,
`setTrainingLogs((prev) => [...prev.slice(-200), event])`; otherwise the
state updater never runs. -/
def handleLogEvent (active : String) (e : RunLogPayload) (st : ConsoleState) :
    ConsoleState :=
  if e.run_id = active then
    { st with trainingLogs := jsSliceLast 200 st.trainingLogs ++ [e] }
  else st

/-- The `onRunMetric` handler: append the metric when the run id matches. -/
def handleMetricEvent (active : String) (e : RunMetricPayload)
    (st : ConsoleState) : ConsoleState :=
  if e.run_id = active then
    { st with trainingMetrics := st.trainingMetrics ++ [e] }
  else st

/-- The `onRunProgress` handler: store `{current, total}` when the run id
matches. -/
def handleProgressEvent (active : String) (e : RunProgressPayload)
    (st : ConsoleState) : ConsoleState :=
  if e.run_id = active then
    { st with trainingProgress := some (e.current, e.total) }
  else st

/-- The `onRunStatus` handler: store the reported status when the run id matches
(the succeeded/failed branch additionally refreshes the project listing,
which is outside the console state). -/
def handleStatusEvent (active : String) (e : RunStatusPayload)
    (st : ConsoleState) : ConsoleState :=
  if e.run_id = active then
    { st with trainingStatus := some e.status }
  else st

/-- The `onRunCompleted` handler: only refreshes the project listing; it never
touches the console state fields. -/
def handleCompletedEvent (_active : String) (_e : RunCompletedPayload)
    (st : ConsoleState) : ConsoleState :=
  st

/-! ## Bounded log buffers (console handler above, and the `Logger` class) -/

inductive LogLevel where
  | debug
  | info
  | warn
  | error
deriving DecidableEq, Repr

/-- The `LogEntry` record of the Logger (`data` is an arbitrary value; serialized). -/
structure LogEntry where
  level : LogLevel
  message : String
  data : Option String
  timestamp : String
  source : Option String
  group : Option String
deriving DecidableEq, Repr

def loggerMaxLogs : Nat := 1000

/-- The store step of `Logger.log`: `this.logs.push(entry)` then
`if (this.logs.length > this.maxLogs) this.logs.shift()`. Appending is
total: it never fails. -/
def loggerLogStore (logs : List LogEntry) (entry : LogEntry) :
    List LogEntry :=
  if loggerMaxLogs < (logs ++ [entry]).length then (logs ++ [entry]).tail
  else logs ++ [entry]

/-! ## WebSocket update handler (`useWebSocket` in hooks) -/

/-- Result of one `onmessage` invocation: the next state plus anything
written to the console's error stream. -/
structure WsHandlerResult (σ : Type) where
  state : σ
  consoleErrors : List String
deriving DecidableEq, Repr

/-- The `onmessage` handler of `useWebSocket`: `JSON.parse(event.data)`
inside a try/catch; on success the parsed object is spread-merged into the
state, on failure `console.error` is called and the state updater never
runs. The host-runtime JSON parse and the spread-merge are the `parse` and
`merge` parameters; a parse result of `none` is the thrown-and-caught
case. -/
def wsOnMessage {σ π : Type} (parse : String → Option π) (merge : σ → π → σ)
    (st : σ) (msg : String) : WsHandlerResult σ :=
  match parse msg with
  | some d => { state := merge st d, consoleErrors := [] }
  | none =>
      { state := st,
        consoleErrors := ["Failed to parse WebSocket message"] }

/-! ## Export types (`Export` record and `ExportRequest` in tauri.ts) -/

/-- The `Export.export_type` union: zip (archive), docker_context
(build-context), docker_image (built-image). -/
inductive ExportType where
  | zip
  | docker_context
  | docker_image
deriving DecidableEq, Repr

/-- The `ExportRequest.export_type` union: only zip and docker_context. -/
inductive ExportRequestType where
  | zip
  | docker_context
deriving DecidableEq, Repr

/-- Every request type is also a record type (the two unions share their
member strings). -/
def requestExportType : ExportRequestType → ExportType
  | .zip => .zip
  | .docker_context => .docker_context

/-- The strings admissible as an `Export.export_type` value. -/
def parseExportType (s : String) : Option ExportType :=
  if s = "zip" then some .zip
  else if s = "docker_context" then some .docker_context
  else if s = "docker_image" then some .docker_image
  else none

/-- The strings admissible as an `ExportRequest.export_type` value. -/
def parseExportRequestType (s : String) : Option ExportRequestType :=
  if s = "zip" then some .zip
  else if s = "docker_context" then some .docker_context
  else none

/-! ## Tauri command surface (the `invoke(...)` targets in tauri.ts) -/

/-- Every command name passed to `invoke` in tauri.ts, in source order. -/
def tauriCommands : List String :=
  ["open_workspace", "get_workspace",
   "create_project", "list_projects", "get_project", "delete_project",
   "import_dataset_cmd", "list_datasets",
   "start_run", "list_runs", "cancel_run",
   "register_model", "promote_model", "list_models", "list_model_versions",
   "list_all_models", "local_predict",
   "export_model", "list_exports",
   "save_training_script", "load_training_script",
   "list_training_scripts", "delete_training_script"]

/-! ## Dataset record (tauri.ts) -/

/-- The `Dataset.storage_mode` union: copied-into-workspace or
referenced-in-place. -/
inductive StorageMode where
  | copy
  | reference
deriving DecidableEq, Repr

/-- The `Dataset` record as declared at the command-binding interface:
`size_bytes?: number` and `file_count?: number` are optional fields. -/
structure Dataset where
  id : String
  project_id : String
  name : String
  fingerprint : String
  storage_mode : StorageMode
  manifest_path : String
  size_bytes : Option Nat
  file_count : Option Nat
  created_at : String
deriving DecidableEq, Repr

/-! ## SyncService (`SyncServiceClass` in the sync module) -/

/-- The `SyncItem.type` union. -/
inductive SyncItemType where
  | model
  | dataset
  | experiment
  | prediction
deriving DecidableEq, Repr

/-- The `SyncItem.syncStatus` union. -/
inductive SyncStatusTag where
  | pending
  | synced
  | conflict
  | error
deriving DecidableEq, Repr

/-- One queued sync item; `data` is an opaque record, carried as its
serialization. -/
structure SyncItem where
  id : String
  ty : SyncItemType
  data : String
  localUpdatedAt : String
  cloudUpdatedAt : Option String
  syncStatus : SyncStatusTag
deriving DecidableEq, Repr

/-- The map `getEndpoint`: the sync endpoint for each item type. -/
def getEndpoint : SyncItemType → String
  | .model => "/api/models/sync"
  | .dataset => "/api/datasets/sync"
  | .experiment => "/api/experiments/sync"
  | .prediction => "/api/predictions/sync"

/-- The JSON body of a successful sync response. -/
structure SyncResponse where
  conflict : Bool
  cloudUpdatedAt : Option String
deriving DecidableEq, Repr

/-- The service's mutable fields relevant to syncing. -/
structure SyncState where
  isOnline : Bool
  isSyncing : Bool
  lastSyncAt : Option String
  pendingItems : List SyncItem
deriving DecidableEq, Repr

/-- One `syncItem` call: POST the item to its endpoint. A network/HTTP failure is the
`Except.error` case of `net` (the thrown-and-caught path: the item is marked
`error` and `false` is returned). On a response, a conflict marks the item
`conflict` and records `cloudUpdatedAt`; otherwise the item is removed from
the pending map. Both response cases return `true`. -/
def syncItemStep (net : SyncItem → Except String SyncResponse)
    (pending : List SyncItem) (item : SyncItem) :
    List SyncItem × Bool :=
  match net item with
  | .ok r =>
      if r.conflict then
        (pending.map (fun it =>
          if it.id = item.id then
            { it with syncStatus := SyncStatusTag.conflict,
                      cloudUpdatedAt := r.cloudUpdatedAt }
          else it), true)
      else
        (pending.filter (fun it => it.id ≠ item.id), true)
  | .error _ =>
      (pending.map (fun it =>
        if it.id = item.id then { it with syncStatus := SyncStatusTag.error }
        else it), false)

/-- The `syncAll` method: when offline or already syncing, return zero counters at
once; otherwise set `isSyncing`, push every item whose status is pending or
error, count successes and failures, then clear `isSyncing` and stamp
`lastSyncAt`. -/
def syncAll (net : SyncItem → Except String SyncResponse) (now : String)
    (st : SyncState) : SyncState × Nat × Nat :=
  if !st.isOnline || st.isSyncing then (st, 0, 0)
  else
    let step := fun (acc : List SyncItem × Nat × Nat) (item : SyncItem) =>
      let (pending, s, f) := acc
      if item.syncStatus = SyncStatusTag.pending ∨
          item.syncStatus = SyncStatusTag.error then
        let (pending', ok) := syncItemStep net pending item
        (pending', if ok then s + 1 else s, if ok then f else f + 1)
      else acc
    let (pending, s, f) := st.pendingItems.foldl step (st.pendingItems, 0, 0)
    ({ st with isSyncing := false, lastSyncAt := some now,
               pendingItems := pending }, s, f)

/-- A concrete referenced-in-place dataset record with neither byte size
nor file count, as the interface permits. -/
def datasetNoCounts : Dataset :=
  { id := "d1", project_id := "p1", name := "train",
    fingerprint := "abc123", storage_mode := StorageMode.reference,
    manifest_path := "manifest.json", size_bytes := none,
    file_count := none, created_at := "t0" }

/-- A concrete copied-into-workspace dataset record carrying both byte size
and file count. -/
def datasetWithCounts : Dataset :=
  { id := "d2", project_id := "p1", name := "train",
    fingerprint := "abc123", storage_mode := StorageMode.copy,
    manifest_path := "manifest.json", size_bytes := some 10240,
    file_count := some 3, created_at := "t0" }

/-- A concrete pending sync item. -/
def pendingSyncItem : SyncItem :=
  { id := "i1", ty := SyncItemType.model, data := "d",
    localUpdatedAt := "t0", cloudUpdatedAt := none,
    syncStatus := SyncStatusTag.pending }

/-- A concrete offline, not-currently-syncing service state with one
pending item. -/
def offlineSyncState : SyncState :=
  { isOnline := false, isSyncing := false, lastSyncAt := none,
    pendingItems := [pendingSyncItem] }

end Babushka

/-! ## Theorems -/

namespace Babushka

/-- C1: Stage promotion is monotonic. A promotion to a stage strictly behind
the current stage (other than `archived`) fails; promotion to `archived`
always succeeds; and the `StageSelector` UI fires `onPromote` for the button
of stage `t` exactly when `t`'s index is strictly greater than the current
stage's index. -/
theorem stage_promotion_monotonic :
    (∀ (v : ModelVersion) (t : Stage) (now : String),
        stageIndex t < stageIndex v.stage → t ≠ Stage.archived →
        exceptIsOk (promote v t now) = false)
    ∧ (∀ (v : ModelVersion) (now : String),
        exceptIsOk (promote v Stage.archived now) = true)
    ∧ (∀ s t : Stage,
        stageSelectorInvokes (stageToString s) (stageIndex t) = true ↔
        stageIndex s < stageIndex t) := by
  refine ⟨?_, ?_, ?_⟩
  · intro v t now hlt hne
    have hidx : ¬ (t = Stage.archived ∨ stageIndex v.stage < stageIndex t) := by
      rintro (rfl | h)
      · exact hne rfl
      · omega
    simp [promote, hidx, exceptIsOk]
  · intro v now
    simp [promote, exceptIsOk]
  · intro s t
    cases s <;> cases t <;> simp [stageSelectorInvokes, stageToString,
      stagesList, stageIndex, jsIndexOf]

/-- Closed witness for C1: promoting a `production` version back to `draft`
fails, while the theorem's hypotheses hold at that input. -/
theorem stage_promotion_monotonic_witness :
    exceptIsOk (promote
      { id := "v1", model_id := "m1", run_id := none, version := "1.0.0",
        stage := Stage.production, artifact_path := "a",
        provenance_json := none, metrics_json := none,
        created_at := "t0", promoted_at := none }
      Stage.draft "t1") = false :=
  stage_promotion_monotonic.1
    { id := "v1", model_id := "m1", run_id := none, version := "1.0.0",
      stage := Stage.production, artifact_path := "a",
      provenance_json := none, metrics_json := none,
      created_at := "t0", promoted_at := none }
    Stage.draft "t1" (by decide) (by decide)

/-- C2: the `Run.status` field admits exactly the five values
pending, running, succeeded, failed, cancelled — no other string is
accepted at the command-binding interface — and the terminal statuses are
exactly succeeded, failed, cancelled. -/
theorem run_status_exactly_five :
    (∀ s : String, (parseRunStatus s).isSome = true ↔
        s = "pending" ∨ s = "running" ∨ s = "succeeded" ∨
        s = "failed" ∨ s = "cancelled")
    ∧ (∀ st : RunStatus, isTerminal st = true ↔
        st = RunStatus.succeeded ∨ st = RunStatus.failed ∨
        st = RunStatus.cancelled) := by
  constructor
  · intro s
    unfold parseRunStatus
    split_ifs with h1 h2 h3 h4 h5 <;> simp_all
  · intro st
    cases st <;> simp [isTerminal]

/-- C3: the live subscription surface exposes exactly the seven channels
run-started, run-log, run-metric, run-progress, run-status, run-error,
run-completed — one per event type, with pairwise distinct names — and for
every one of them the delivered payload carries the originating `run_id`
field. -/
theorem live_subscription_channels :
    eventChannels = ["run-started", "run-log", "run-metric", "run-progress",
      "run-status", "run-error", "run-completed"]
    ∧ eventChannels.Nodup
    ∧ (∀ e : RunEvent, eventChannel e ∈ eventChannels)
    ∧ (∀ p : RunStartedPayload, eventRunId (RunEvent.started p) = p.run_id)
    ∧ (∀ p : RunLogPayload, eventRunId (RunEvent.log p) = p.run_id)
    ∧ (∀ p : RunMetricPayload, eventRunId (RunEvent.metric p) = p.run_id)
    ∧ (∀ p : RunProgressPayload, eventRunId (RunEvent.progress p) = p.run_id)
    ∧ (∀ p : RunStatusPayload, eventRunId (RunEvent.status p) = p.run_id)
    ∧ (∀ p : RunErrorPayload, eventRunId (RunEvent.error p) = p.run_id)
    ∧ (∀ p : RunCompletedPayload,
        eventRunId (RunEvent.completed p) = p.run_id) := by
  refine ⟨rfl, by decide, ?_, fun _ => rfl, fun _ => rfl, fun _ => rfl,
    fun _ => rfl, fun _ => rfl, fun _ => rfl, fun _ => rfl⟩
  intro e
  cases e <;> simp [eventChannel, eventChannels]

/-- C4: the training-console handlers filter by `run_id`: an event whose
`run_id` differs from the active run id leaves the console state (logs,
metrics, progress, status) unchanged, and the completed handler never
touches the console state at all. -/
theorem multiplexed_subscribers_filter :
    ∀ (active : String) (st : ConsoleState),
      (∀ e : RunLogPayload, e.run_id ≠ active →
        handleLogEvent active e st = st)
      ∧ (∀ e : RunMetricPayload, e.run_id ≠ active →
        handleMetricEvent active e st = st)
      ∧ (∀ e : RunProgressPayload, e.run_id ≠ active →
        handleProgressEvent active e st = st)
      ∧ (∀ e : RunStatusPayload, e.run_id ≠ active →
        handleStatusEvent active e st = st)
      ∧ (∀ e : RunCompletedPayload, handleCompletedEvent active e st = st) := by
  intro active st
  refine ⟨?_, ?_, ?_, ?_, fun _ => rfl⟩ <;>
    intro e h <;>
    simp [handleLogEvent, handleMetricEvent, handleProgressEvent,
      handleStatusEvent, h]

/-- Closed witness for C4: a log event for run r2 leaves the console of
active run r1 unchanged. -/
theorem multiplexed_subscribers_filter_witness :
    handleLogEvent "r1"
      { run_id := "r2", level := "info", message := "epoch 1", ts := "t" }
      { trainingLogs := [], trainingMetrics := [],
        trainingProgress := none, trainingStatus := none }
    = { trainingLogs := [], trainingMetrics := [],
        trainingProgress := none, trainingStatus := none } :=
  (multiplexed_subscribers_filter "r1"
      { trainingLogs := [], trainingMetrics := [],
        trainingProgress := none, trainingStatus := none }).1
    { run_id := "r2", level := "info", message := "epoch 1", ts := "t" }
    (by decide)

/-- C5: both log buffers are bounded and appending is total. The console
keeps at most the 200 most recent entries plus the new one (≤ 201), and the
Logger keeps at most `maxLogs = 1000` entries, dropping the oldest first:
the bound is preserved by each append, and holds for every sequence of
appends from the empty buffer. -/
theorem log_buffer_bounded :
    (∀ (active : String) (e : RunLogPayload) (st : ConsoleState),
        st.trainingLogs.length ≤ 201 →
        (handleLogEvent active e st).trainingLogs.length ≤ 201)
    ∧ (∀ (logs : List LogEntry) (e : LogEntry),
        logs.length ≤ loggerMaxLogs →
        (loggerLogStore logs e).length ≤ loggerMaxLogs)
    ∧ (∀ entries : List LogEntry,
        (entries.foldl loggerLogStore []).length ≤ loggerMaxLogs) := by
  have hstep : ∀ (logs : List LogEntry) (e : LogEntry),
      logs.length ≤ loggerMaxLogs →
      (loggerLogStore logs e).length ≤ loggerMaxLogs := by
    intro logs e h
    unfold loggerLogStore loggerMaxLogs at *
    split
    · next hlen =>
      simp [List.length_tail] at hlen ⊢
      omega
    · next hlen =>
      simp at hlen ⊢
      omega
  refine ⟨?_, hstep, ?_⟩
  · intro active e st h
    unfold handleLogEvent
    split
    · simp [jsSliceLast]
      omega
    · exact h
  · intro entries
    have hgen : ∀ (es : List LogEntry) (logs : List LogEntry),
        logs.length ≤ loggerMaxLogs →
        (es.foldl loggerLogStore logs).length ≤ loggerMaxLogs := by
      intro es
      induction es with
      | nil => intro logs h; simpa using h
      | cons e es ih =>
          intro logs h
          exact ih (loggerLogStore logs e) (hstep logs e h)
    exact hgen entries [] (by simp [loggerMaxLogs])

/-- C6: a malformed update message is never fatal: when the body fails to
parse as JSON, the handler logs an error, returns the state exactly as it
was, and (being a total function) raises nothing to the caller. -/
theorem malformed_payload_never_fatal :
    ∀ {σ π : Type} (parse : String → Option π) (merge : σ → π → σ)
      (st : σ) (msg : String), parse msg = none →
      (wsOnMessage parse merge st msg).state = st
      ∧ (wsOnMessage parse merge st msg).consoleErrors ≠ [] := by
  intro σ π parse merge st msg h
  simp [wsOnMessage, h]

/-- Closed witness for C6: a parser that rejects the body leaves a concrete
state untouched and emits an error log. -/
theorem malformed_payload_never_fatal_witness :
    (wsOnMessage (fun _ : String => (none : Option Nat))
        (fun (s : Nat) _ => s + 1) 7 "not json").state = 7
    ∧ (wsOnMessage (fun _ : String => (none : Option Nat))
        (fun (s : Nat) _ => s + 1) 7 "not json").consoleErrors ≠ [] :=
  malformed_payload_never_fatal (fun _ => none) (fun s _ => s + 1) 7
    "not json" rfl

/-- C7: the `Export` record's type union has exactly the three members zip
(archive), docker_context (build-context), docker_image (built-image),
while the export command's request union accepts only the first two; no
other string is representable at either interface. -/
theorem export_type_exactly_three :
    (∀ s : String, (parseExportType s).isSome = true ↔
        s = "zip" ∨ s = "docker_context" ∨ s = "docker_image")
    ∧ (∀ s : String, (parseExportRequestType s).isSome = true ↔
        s = "zip" ∨ s = "docker_context")
    ∧ (∀ t : ExportType,
        t = ExportType.zip ∨ t = ExportType.docker_context ∨
        t = ExportType.docker_image)
    ∧ (∀ r : ExportRequestType,
        requestExportType r ≠ ExportType.docker_image) := by
  refine ⟨?_, ?_, ?_, ?_⟩
  · intro s
    unfold parseExportType
    split_ifs <;> simp_all
  · intro s
    unfold parseExportRequestType
    split_ifs <;> simp_all
  · intro t
    cases t <;> simp
  · intro r
    cases r <;> simp [requestExportType]

/-- C8: the command surface provides bindings for every named operation:
open/get for Workspace (`open_workspace`, `get_workspace`),
create/list/get/delete for Project, import/list for Dataset,
start/list/cancel for Run, register/promote/list/list-versions for Model,
and export/list for Export — each of open, create, list, get, delete is
covered across Workspace and Project. -/
theorem command_surface_complete :
    "open_workspace" ∈ tauriCommands ∧ "get_workspace" ∈ tauriCommands
    ∧ "create_project" ∈ tauriCommands ∧ "list_projects" ∈ tauriCommands
    ∧ "get_project" ∈ tauriCommands ∧ "delete_project" ∈ tauriCommands
    ∧ "import_dataset_cmd" ∈ tauriCommands ∧ "list_datasets" ∈ tauriCommands
    ∧ "start_run" ∈ tauriCommands ∧ "list_runs" ∈ tauriCommands
    ∧ "cancel_run" ∈ tauriCommands
    ∧ "register_model" ∈ tauriCommands ∧ "promote_model" ∈ tauriCommands
    ∧ "list_models" ∈ tauriCommands ∧ "list_model_versions" ∈ tauriCommands
    ∧ "export_model" ∈ tauriCommands ∧ "list_exports" ∈ tauriCommands := by
  refine ⟨?_, ?_, ?_, ?_, ?_, ?_, ?_, ?_, ?_, ?_, ?_, ?_, ?_, ?_, ?_, ?_,
    ?_⟩ <;> simp [tauriCommands]

/-- Closed witness for C5: both bounded-append facts at concrete inputs. -/
theorem log_buffer_bounded_witness :
    (handleLogEvent "r1"
      { run_id := "r1", level := "info", message := "m", ts := "t" }
      { trainingLogs := [], trainingMetrics := [],
        trainingProgress := none, trainingStatus := none
        }).trainingLogs.length ≤ 201
    ∧ (loggerLogStore []
        { level := LogLevel.info, message := "m", data := none,
          timestamp := "t", source := none, group := none }).length ≤
        loggerMaxLogs :=
  ⟨log_buffer_bounded.1 "r1"
      { run_id := "r1", level := "info", message := "m", ts := "t" }
      { trainingLogs := [], trainingMetrics := [],
        trainingProgress := none, trainingStatus := none } (by decide),
   log_buffer_bounded.2.1 []
      { level := LogLevel.info, message := "m", data := none,
        timestamp := "t", source := none, group := none } (by decide)⟩

/-- C9 counterexample: byte size and file count are NOT always present on a
Dataset record — the interface declares them optional, and the concrete
record below, well-typed at that interface, carries neither. -/
theorem dataset_size_always_present_refuted :
    ¬ (∀ d : Dataset, d.size_bytes.isSome = true ∧
        d.file_count.isSome = true) := by
  intro h
  have hc := h datasetNoCounts
  simp [datasetNoCounts] at hc

/-- C9 amended: every Dataset record carries a content fingerprint, a
storage mode that is either copied-into-workspace or referenced-in-place,
and a manifest path; byte size and file count are optional fields — records
with and without them are both representable at the interface. -/
theorem dataset_record_fields :
    (∀ d : Dataset, d.storage_mode = StorageMode.copy ∨
        d.storage_mode = StorageMode.reference)
    ∧ (∃ d : Dataset, d.size_bytes = none ∧ d.file_count = none)
    ∧ (∃ d : Dataset, d.size_bytes.isSome = true ∧
        d.file_count.isSome = true) := by
  refine ⟨?_, ?_, ?_⟩
  · intro d
    cases hd : d.storage_mode
    · exact Or.inl rfl
    · exact Or.inr rfl
  · exact ⟨datasetNoCounts, rfl, rfl⟩
  · exact ⟨datasetWithCounts, rfl, rfl⟩

/-- C10: `SyncService.syncAll` is guarded: when the service is offline or a
sync is already in progress, it returns zero success and failure counters
and leaves the whole service state — the pending-item queue and every item's
sync status included — unchanged. -/
theorem syncAll_guarded :
    ∀ (net : SyncItem → Except String SyncResponse) (now : String)
      (st : SyncState),
      st.isOnline = false ∨ st.isSyncing = true →
      syncAll net now st = (st, 0, 0) := by
  intro net now st h
  unfold syncAll
  rcases h with h | h <;> simp [h]

/-- Closed witness for C10: an offline service with a pending item returns
zero counters and keeps its state. -/
theorem syncAll_guarded_witness :
    syncAll (fun _ => Except.error "network down") "t1" offlineSyncState
    = (offlineSyncState, 0, 0) :=
  syncAll_guarded (fun _ => Except.error "network down") "t1"
    offlineSyncState (Or.inl rfl)

end Babushka
